import Mathlib

/-!
Verification development for the clear-service-record conversion tool
(`src/clear.py`): a shallow embedding of its record schema, input
line-count cap, extractor endpoint selection, response validation,
payment-status aggregation and spreadsheet export, with theorems about
the spec's claims.
-/

set_option autoImplicit false

namespace Clear

/-! ## Record schema (clear.py line 123) -/

/-- The fixed ordered field set, `columns` in clear.py line 123. -/
def columns : List String :=
  ["师傅", "项目", "地址", "房号", "客户姓名", "电话号码", "服务内容", "费用", "支付状态", "备注"]

/-! ## Input line counting (clear.py lines 181-186)

`line_count = len(input_text.strip().split('\n'))`, compared against
`max_records = 50`.  We model strings at the `List Char` level so that
Python's `str.strip` (drop leading/trailing whitespace) and
`str.split('\n')` (keep empty segments between consecutive newlines,
`"".split('\n') == [""]`) can be rendered by structural recursion. -/

/-- ASCII whitespace as recognised by Python's `str.strip()`. -/
def isPyWs (c : Char) : Bool :=
  c = ' ' || c = '\t' || c = '\n' || c = '\r' || c = '\x0b' || c = '\x0c'

/-- Python `s.strip()`: drop leading and trailing whitespace characters. -/
def pyStrip (cs : List Char) : List Char :=
  ((cs.dropWhile isPyWs).reverse.dropWhile isPyWs).reverse

/-- Python `s.split('\n')`: split on every newline, keeping empty
segments; the empty string yields `[""]`. -/
def splitNL : List Char → List (List Char)
  | [] => [[]]
  | c :: cs =>
    if c = '\n' then [] :: splitNL cs
    else
      match splitNL cs with
      | [] => [[c]]
      | t :: ts => (c :: t) :: ts

/-- clear.py line 183: `line_count = len(input_text.strip().split('\n'))`. -/
def lineCount (input : List Char) : Nat :=
  (splitNL (pyStrip input)).length

/-- clear.py line 182: `max_records = 50`. -/
def max_records : Nat := 50

/-- clear.py lines 184-186: if the line count exceeds the cap, warn with
the actual and allowed counts and stop; otherwise pass. -/
def lineLimitCheck (input : List Char) : Option String :=
  if lineCount input > max_records then
    some ("一次最多处理" ++ toString max_records ++ "条记录（当前" ++
          toString (lineCount input) ++ "条），请分批处理")
  else none

/-! ## Endpoint testing loop (clear.py lines 141-189) -/

/-- The fixed ordered candidate endpoint list, clear.py lines 141-145. -/
def endpoints : List String :=
  ["https://api.deepseek.com", "https://api.deepseek.com/v1", "https://api.deepseek.cc"]

/-- Outcome of one probe call (`client.chat.completions.create` with the
test message, clear.py lines 152-157): the call raised an exception with
a message, returned with an empty `choices`, or returned with a
non-empty `choices` (success). -/
inductive ProbeResult where
  | ok
  | noChoices
  | exn (msg : String)
deriving DecidableEq, Repr

/-- Whether a probe outcome is the success case `test_response.choices`
being non-empty (clear.py line 158). -/
def ProbeResult.isOk : ProbeResult → Bool
  | .ok => true
  | _ => false

/-- The per-endpoint failure reason recorded by clear.py line 163
(`error_messages.append(f"{endpoint}: {str(e)}")`), when the probe
raised. -/
def exnReason (probe : String → ProbeResult) (ep : String) : Option String :=
  match probe ep with
  | .exn m => some (ep ++ ": " ++ m)
  | _ => none

/-- The `for endpoint in endpoints` loop of clear.py lines 150-163:
returns the endpoint bound on first success (if any), the accumulated
`error_messages`, and the list of endpoints actually probed, in order.
On success the loop breaks; on an exception the reason is appended; on
an exception-free reply with empty `choices` the loop just continues. -/
def testEndpoints (probe : String → ProbeResult) : List String → Option String × List String × List String
  | [] => (none, [], [])
  | ep :: rest =>
    match probe ep with
    | .ok => (some ep, [], [ep])
    | .noChoices =>
      let r := testEndpoints probe rest
      (r.1, r.2.1, ep :: r.2.2)
    | .exn m =>
      let r := testEndpoints probe rest
      (r.1, (ep ++ ": " ++ m) :: r.2.1, ep :: r.2.2)

/-- Outcome of the connection step: either the extraction client is
bound to the first successful endpoint (clear.py line 189 reuses the
loop variable `endpoint`), or all candidates were exhausted and the
failure banner plus the aggregated `error_messages` are surfaced
(clear.py lines 165-179). -/
inductive ConnectOutcome where
  | extractUsing (endpoint : String)
  | allFailed (banner : String) (reasons : List String)
deriving DecidableEq, Repr

/-- clear.py lines 139-189: run the endpoint test loop, then either
surface the aggregate failure or bind the client to the successful
endpoint. -/
def connectExtractor (probe : String → ProbeResult) (eps : List String) : ConnectOutcome :=
  match testEndpoints probe eps with
  | (some ep, _, _) => .extractUsing ep
  | (none, errs, _) => .allFailed "API密钥验证失败: 所有API端点测试失败" errs

/-! ## Response validation (clear.py lines 284-313) -/

/-- One element of the evaluated top-level list: either a key-value
mapping (a Python `dict`, keys unique, values rendered as strings) or
anything else, carried as its `str` rendering for the error message. -/
inductive PyElem where
  | map (kv : List (String × String))
  | other (reprStr : String)
deriving DecidableEq, Repr

/-- Whether an element is a mapping (`isinstance(record, dict)`). -/
def PyElem.isMap : PyElem → Bool
  | .map _ => true
  | _ => false

/-- Python `record.get(key, '')`: the value under `key`, defaulting to
the empty string when the key is absent. -/
def pyGet (kv : List (String × String)) (k : String) : String :=
  match kv.lookup k with
  | some v => v
  | none => ""

/-- clear.py lines 296-307: the row appended for a well-formed record —
the ten known fields fetched by exact key, absent keys defaulting to
`""`; any other key of the dict is never consulted. -/
def recordRow (kv : List (String × String)) : List String :=
  [pyGet kv "师傅", pyGet kv "项目", pyGet kv "地址", pyGet kv "房号",
   pyGet kv "客户姓名", pyGet kv "电话号码", pyGet kv "服务内容", pyGet kv "费用",
   pyGet kv "支付状态", pyGet kv "备注"]

/-- The row a list element contributes, if any. -/
def PyElem.toRow : PyElem → Option (List String)
  | .map kv => some (recordRow kv)
  | .other _ => none

/-- The `for record in parsed_data` loop of clear.py lines 294-309,
carried out on accumulators `data` and `errors` exactly as the Python
loop mutates them: a dict appends its row to `data`; anything else
appends `f"第 {len(data) + 1} 条记录格式错误: {record}"` to `errors`
and processing continues. -/
def processElems : List PyElem → List (List String) → List String → List (List String) × List String
  | [], data, errors => (data, errors)
  | .map kv :: rest, data, errors =>
    processElems rest (data ++ [recordRow kv]) errors
  | .other r :: rest, data, errors =>
    processElems rest data
      (errors ++ ["第 " ++ toString (data.length + 1) ++ " 条记录格式错误: " ++ r])

/-- The extractor reply after clear.py lines 287-292: no usable content
(`not response.choices or not ...content`), `eval` raising (with the
exception's message), a value that is not a list (with its rendering),
or a list of elements. -/
inductive Reply where
  | noContent
  | evalFails (diag : String)
  | notList (reprStr : String)
  | list (elems : List PyElem)
deriving DecidableEq, Repr

/-- clear.py lines 284-313: the validation of the extractor reply into
`(data, errors)`.  The no-content case is reported by `st.error` and
`st.stop` (line 288-289); we model that single displayed diagnostic as
the one global error, alongside an empty record set.  The `except`
branch records `f"解析失败: {str(e)}"` and the non-list branch records
the fixed global message; in every case the function is total — no
fault escapes. -/
def validate : Reply → List (List String) × List String
  | .noContent => ([], ["未能解析出任何记录，请检查输入格式！"])
  | .evalFails d => ([], ["解析失败: " ++ d])
  | .notList _ => ([], ["解析结果不是列表格式，请检查输入文本！"])
  | .list es => processElems es [] []

/-! ## Payment-status aggregation (clear.py lines 352-357) -/

/-- pandas `Series.value_counts()` on the payment-status column: the
distinct values, each with the number of cells exactly equal to it. -/
def value_counts (xs : List String) : List (String × Nat) :=
  xs.dedup.map (fun v => (v, xs.count v))

/-- pandas `payment_counts.get(key, 0)`: the count stored under the
exact value `key`, or 0 when the value never occurs. -/
def countsGet (xs : List String) (k : String) : Nat :=
  match (value_counts xs).lookup k with
  | some n => n
  | none => 0

/-- clear.py lines 352-357: the displayed metrics — the total record
count always, and (when `payment_counts` is non-empty) the counts
fetched under the two literal markers `未支付` and `已支付`. -/
def paymentMetrics (statuses : List String) : Nat × Option (Nat × Nat) :=
  (statuses.length,
   if (value_counts statuses).isEmpty then none
   else some (countsGet statuses "未支付", countsGet statuses "已支付"))

/-! ## Export encoder (clear.py lines 359-393) -/

/-- One `worksheet.conditional_format(first_row, first_col, last_row,
last_col, ...)` call with a `text`/`containing` criterion and a
background color. -/
structure CondFmt where
  firstRow : Nat
  firstCol : Nat
  lastRow : Nat
  lastCol : Nat
  value : String
  bgColor : String
deriving DecidableEq, Repr

/-- The two conditional-format calls of clear.py lines 372-383, for a
table of `nRows` data rows: both target rows 1..`nRows` of columns
7..7, highlighting cells containing `未支付` red and `已支付` green. -/
def condFormats (nRows : Nat) : List CondFmt :=
  [⟨1, 7, nRows, 7, "未支付", "#FFC7CE"⟩,
   ⟨1, 7, nRows, 7, "已支付", "#C6EFCE"⟩]

/-- The sheet content written by `df.to_excel(writer, index=False, ...)`
(clear.py lines 364 and 389): the header row of the ten column names,
then one row per record in table order. -/
def encodeSheet (rows : List (List String)) : List (List String) :=
  columns :: rows

/-- The cell grid of the written sheet, addressed `(row, column)` with
the header at row 0 and record `i` at row `i + 1`; cells outside the
written range are absent. -/
def sheetCell (rows : List (List String)) (r c : Nat) : Option String :=
  if r = 0 then columns.get? c
  else (rows.get? (r - 1)).bind (fun row => row.get? c)

/-- Reading one row of `width` cells back out of a cell grid. -/
def readRow (cells : Nat → Nat → Option String) (r width : Nat) : List String :=
  (List.range width).map (fun c => (cells r c).getD "")

/-- Parsing a written sheet of `height` data rows and `width` columns
back into its header row and data rows. -/
def readSheet (cells : Nat → Nat → Option String) (height width : Nat) :
    List String × List (List String) :=
  (readRow cells 0 width, (List.range height).map (fun i => readRow cells (i + 1) width))

/-- The workbook produced by the export step: the sheet content plus the
formatting actually applied (conditional formats, frozen header rows,
autofilter range). -/
structure Workbook where
  sheet : List (List String)
  appliedFormats : List CondFmt
  frozenRows : Nat
  autofilter : Option (Nat × Nat × Nat × Nat)
deriving DecidableEq, Repr

/-- The advanced (xlsxwriter) export path, clear.py lines 363-385:
header plus data rows, the two conditional formats, a frozen first row,
and an autofilter over rows 0..`len(df)` and columns 0..9. -/
def exportAdvanced (rows : List (List String)) : Workbook :=
  { sheet := encodeSheet rows
    appliedFormats := condFormats rows.length
    frozenRows := 1
    autofilter := some (0, 0, rows.length, columns.length - 1) }

/-- The fallback (openpyxl) export path, clear.py lines 388-389: the
same header and data rows, with no formatting of any kind. -/
def exportPlain (rows : List (List String)) : Workbook :=
  { sheet := encodeSheet rows
    appliedFormats := []
    frozenRows := 0
    autofilter := none }

/-- clear.py lines 361-390: the export step.  `fmtError` is `none` when
the xlsxwriter path succeeds and `some e` when it raises with message
`e`; in the latter case `st.warning(f"高级Excel格式设置失败: {str(e)}，
使用基础导出")` is surfaced and the plain path runs.  The result pairs
the displayed warning (if any) with the workbook written last. -/
def exportExcel (rows : List (List String)) (fmtError : Option String) :
    Option String × Workbook :=
  match fmtError with
  | none => (none, exportAdvanced rows)
  | some e => (some ("高级Excel格式设置失败: " ++ e ++ "，使用基础导出"), exportPlain rows)

/-! ## The conversion button handler (clear.py lines 126-282) -/

/-- One network call issued to the extractor service: a probe (the key
test of lines 153-157) or the main extraction call (lines 193-275). -/
inductive NetEvent where
  | probe (endpoint : String)
  | mainCall (endpoint : String)
deriving DecidableEq, Repr

/-- Whether an event is the main extraction call. -/
def NetEvent.isMainCall : NetEvent → Bool
  | .mainCall _ => true
  | _ => false

/-- The point at which the conversion run ends (or proceeds to the
extraction call). -/
inductive RunOutcome where
  | emptyInput
  | missingKey
  | endpointsFailed (reasons : List String)
  | tooManyLines (msg : String)
  | extracted (endpoint : String)
deriving DecidableEq, Repr

/-- clear.py lines 126-272, in source order: reject blank input (line
129), reject a missing key (line 134), run the endpoint test loop
(lines 141-179, one probe call per attempted endpoint), reject inputs
over the line cap (lines 181-186), and only then issue the main
extraction call against the endpoint the loop stopped at (line 189 and
193).  Returns the outcome and the trace of network calls made. -/
def runConvert (input : List Char) (key : Option String)
    (probe : String → ProbeResult) : RunOutcome × List NetEvent :=
  if pyStrip input = [] then (.emptyInput, [])
  else
    match key with
    | none => (.missingKey, [])
    | some _ =>
      let t := testEndpoints probe endpoints
      let probeEvents := t.2.2.map NetEvent.probe
      match t.1 with
      | none => (.endpointsFailed t.2.1, probeEvents)
      | some ep =>
        match lineLimitCheck input with
        | some msg => (.tooManyLines msg, probeEvents)
        | none => (.extracted ep, probeEvents ++ [NetEvent.mainCall ep])

/-! ## Concrete inputs used in witnesses and counterexamples -/

/-- `n` one-character records separated by blank lines: `"x"`, then
`"\n\nx"` repeated.  30 records give the 59-segment input of the spec's
blank-line example. -/
def blanksep : Nat → List Char
  | 0 => []
  | 1 => ['x']
  | n + 2 => 'x' :: '\n' :: '\n' :: blanksep (n + 1)

/-- `n` one-character records on consecutive lines. -/
def denseLines : Nat → List Char
  | 0 => []
  | 1 => ['x']
  | n + 2 => 'x' :: '\n' :: denseLines (n + 1)

/-! ## Lemmas about the validation loop -/

/-- The record list built by the loop: the incoming accumulator
followed by the row of every mapping element, in order. -/
theorem processElems_fst (es : List PyElem) (data : List (List String)) (errors : List String) :
    (processElems es data errors).1 = data ++ es.filterMap PyElem.toRow := by
  induction es generalizing data errors with
  | nil => simp [processElems]
  | cons e rest ih =>
    cases e with
    | map kv => simp [processElems, PyElem.toRow, ih]
    | other r => simp [processElems, PyElem.toRow, ih]

/-- The loop adds exactly one error per non-mapping element. -/
theorem processElems_errlen (es : List PyElem) (data : List (List String)) (errors : List String) :
    (processElems es data errors).2.length =
      errors.length + es.countP (fun e => !e.isMap) := by
  induction es generalizing data errors with
  | nil => simp [processElems]
  | cons e rest ih =>
    cases e with
    | map kv => simp [processElems, PyElem.isMap, ih, List.countP_cons]
    | other r =>
      simp [processElems, PyElem.isMap, ih, List.countP_cons]
      omega

/-- Each mapping element contributes exactly one row. -/
theorem filterMap_toRow_length (es : List PyElem) :
    (es.filterMap PyElem.toRow).length = es.countP PyElem.isMap := by
  induction es with
  | nil => simp
  | cons e rest ih =>
    cases e with
    | map kv => simp [PyElem.toRow, PyElem.isMap, List.countP_cons, ih]
    | other r => simp [PyElem.toRow, PyElem.isMap, List.countP_cons, ih]

/-- C3: for a parsed array with mapping and non-mapping elements
interspersed in any order, validation yields exactly the rows of the
mapping elements in their original relative order — each row the ten
fields fetched by exact key with absent keys defaulting to the empty
string and unknown keys dropped — and exactly one error per non-mapping
element, with no early termination. -/
theorem validator_keeps_records_and_errors (es : List PyElem) :
    (validate (.list es)).1 = es.filterMap PyElem.toRow
    ∧ (validate (.list es)).1.length = es.countP PyElem.isMap
    ∧ (validate (.list es)).2.length = es.countP (fun e => !e.isMap) := by
  refine ⟨?_, ?_, ?_⟩
  · simpa using processElems_fst es [] []
  · rw [show (validate (.list es)).1 = es.filterMap PyElem.toRow from by
      simpa using processElems_fst es [] []]
    exact filterMap_toRow_length es
  · simpa using processElems_errlen es [] []

/-- Evaluation of the whole validator at a concrete interspersed reply:
`[{"师傅": "王"}, 1, {"备注": "b", "x": "y"}]` keeps the two mapping
elements (in order, absent fields defaulted, the unknown key `x`
dropped) and records one error for the interspersed `1`. -/
theorem validator_keeps_records_and_errors_witness :
    (validate (.list [.map [("师傅", "王")], .other "1", .map [("备注", "b"), ("x", "y")]])).1
      = [["王", "", "", "", "", "", "", "", "", ""],
         ["", "", "", "", "", "", "", "", "", "b"]]
    ∧ (validate (.list [.map [("师傅", "王")], .other "1",
          .map [("备注", "b"), ("x", "y")]])).2.length = 1 := by
  have h := validator_keeps_records_and_errors
    [.map [("师傅", "王")], .other "1", .map [("备注", "b"), ("x", "y")]]
  exact ⟨by rw [h.1]; decide, by rw [h.2.2]; decide⟩

/-- C4: the position tag of a per-record error is computed from
`len(data) + 1` — the number of well-formed records seen so far plus
one — not from the element's position in the parsed array.  On the
array `[1, 2]`, whose second element sits at position 2, both errors
report position 1. -/
theorem malformed_position_is_data_length :
    (validate (.list [.other "1", .other "2"])).2
      = ["第 1 条记录格式错误: 1", "第 1 条记录格式错误: 2"] := by
  decide

/-- C5: an empty reply, a reply whose evaluation fails, and a reply that
evaluates to a non-list all produce an empty record set together with
exactly one global error; `validate` is a total function, so no fault
escapes. -/
theorem global_error_paths (d r : String) :
    validate .noContent = ([], ["未能解析出任何记录，请检查输入格式！"])
    ∧ (validate (.evalFails d)).1 = []
    ∧ (validate (.evalFails d)).2 = ["解析失败: " ++ d]
    ∧ (validate (.notList r)).1 = []
    ∧ (validate (.notList r)).2 = ["解析结果不是列表格式，请检查输入文本！"] := by
  exact ⟨rfl, rfl, rfl, rfl, rfl⟩

/-- Evaluation of the three global-error paths at concrete replies. -/
theorem global_error_paths_witness :
    (validate (.evalFails "invalid syntax")).2 = ["解析失败: invalid syntax"]
    ∧ (validate (.notList "3")).1 = [] := by
  exact ⟨(global_error_paths "invalid syntax" "3").2.2.1,
         (global_error_paths "invalid syntax" "3").2.2.2.1⟩

/-! ## Lemmas about `value_counts` -/

/-- Looking a key up in a list tabulating `f` over distinct values. -/
theorem lookup_map_pair (f : String → Nat) (l : List String) (k : String) :
    (l.map (fun v => (v, f v))).lookup k = if k ∈ l then some (f k) else none := by
  induction l with
  | nil => simp
  | cons a as ih =>
    by_cases h : k = a
    · subst h
      simp [List.lookup]
    · have hb : (k == a) = false := by simp [h]
      simp [List.lookup, hb, ih, h]

/-- The `.get(key, 0)` on `value_counts` is the exact-match count. -/
theorem countsGet_eq_count (xs : List String) (k : String) :
    countsGet xs k = xs.count k := by
  unfold countsGet value_counts
  rw [lookup_map_pair]
  by_cases h : k ∈ xs.dedup
  · simp [h]
  · have h2 : k ∉ xs := fun hk => h (List.mem_dedup.mpr hk)
    simp [h, List.count_eq_zero.mpr h2]

/-- `value_counts` of a non-empty column is non-empty. -/
theorem value_counts_ne_nil (ss : List String) (h : ss ≠ []) : value_counts ss ≠ [] := by
  cases ss with
  | nil => exact absurd rfl h
  | cons a t =>
    intro hc
    have hd : (a :: t).dedup = [] := List.map_eq_nil_iff.mp hc
    have : a ∈ (a :: t).dedup := List.mem_dedup.mpr (List.mem_cons_self a t)
    rw [hd] at this
    exact absurd this (List.not_mem_nil a)

/-- C6: for every non-empty table the displayed aggregate is the row
count together with the number of rows exactly equal to `未支付` and
the number exactly equal to `已支付` — every other value, the empty
string included, counts toward neither; on
`["未支付","已支付","未支付",""]` this is total 4, unpaid 2, paid 1. -/
theorem payment_counts_spec :
    (∀ ss : List String, ss ≠ [] →
      paymentMetrics ss = (ss.length, some (ss.count "未支付", ss.count "已支付")))
    ∧ paymentMetrics ["未支付", "已支付", "未支付", ""] = (4, some (2, 1)) := by
  constructor
  · intro ss h
    unfold paymentMetrics
    rw [countsGet_eq_count, countsGet_eq_count,
      List.isEmpty_eq_false.mpr (value_counts_ne_nil ss h)]
    simp
  · decide

/-- Evaluation of the aggregate on the spec's example table. -/
theorem payment_counts_spec_witness :
    paymentMetrics ["未支付", "已支付", "其他", ""] = (4, some (1, 1)) := by
  have h := payment_counts_spec.1 ["未支付", "已支付", "其他", ""] (by decide)
  rw [h]
  decide

/-- C2's evidence: both conditional-format calls of the export step
target columns 7..7 over rows 1..`len(df)`, but in the fixed schema
column 7 is `费用` (cost) — the payment-status column `支付状态` is
column 8.  Evaluated at a one-row table. -/
theorem conditional_format_targets_cost_column :
    (condFormats 1).map (fun f => (f.firstRow, f.firstCol, f.lastRow, f.lastCol))
      = [(1, 7, 1, 7), (1, 7, 1, 7)]
    ∧ (condFormats 1).map CondFmt.value = ["未支付", "已支付"]
    ∧ (exportAdvanced [recordRow []]).appliedFormats = condFormats 1
    ∧ columns.get? 7 = some "费用"
    ∧ columns.get? 8 = some "支付状态"
    ∧ columns.indexOf "支付状态" = 8 := by
  decide

/-! ## Lemmas about the endpoint test loop -/

/-- The endpoint the loop stops at is the first successful one. -/
theorem testEndpoints_sel (probe : String → ProbeResult) (eps : List String) :
    (testEndpoints probe eps).1 = eps.find? (fun e => (probe e).isOk) := by
  induction eps with
  | nil => rfl
  | cons ep rest ih =>
    cases h : probe ep <;>
      simp [testEndpoints, List.find?, h, ProbeResult.isOk, ih]

/-- The accumulated `error_messages`: one entry per endpoint that
raised, among the endpoints before the first success, in order. -/
theorem testEndpoints_errs (probe : String → ProbeResult) (eps : List String) :
    (testEndpoints probe eps).2.1 =
      (eps.takeWhile (fun e => !(probe e).isOk)).filterMap (exnReason probe) := by
  induction eps with
  | nil => rfl
  | cons ep rest ih =>
    cases h : probe ep <;>
      simp [testEndpoints, List.takeWhile, h, ProbeResult.isOk, exnReason, ih]

/-- The endpoints actually probed form a front segment of the candidate
list: they are attempted in order, each at most once, and nothing past
the first success is touched. -/
theorem testEndpoints_attempted_front (probe : String → ProbeResult) (eps : List String) :
    ∃ t, (testEndpoints probe eps).2.2 ++ t = eps := by
  induction eps with
  | nil => exact ⟨[], rfl⟩
  | cons ep rest ih =>
    cases h : probe ep
    · exact ⟨rest, by simp [testEndpoints, h]⟩
    · obtain ⟨t, ht⟩ := ih
      exact ⟨t, by simp [testEndpoints, h, ht]⟩
    · obtain ⟨t, ht⟩ := ih
      exact ⟨t, by simp [testEndpoints, h, ht]⟩

/-- When no endpoint succeeds, every candidate is probed exactly once. -/
theorem testEndpoints_attempted_of_none (probe : String → ProbeResult) (eps : List String)
    (h : (testEndpoints probe eps).1 = none) :
    (testEndpoints probe eps).2.2 = eps := by
  induction eps with
  | nil => rfl
  | cons ep rest ih =>
    cases hp : probe ep
    · rw [testEndpoints, hp] at h
      exact absurd h (by simp)
    · rw [testEndpoints, hp] at h ⊢
      simpa using ih (by simpa using h)
    · rw [testEndpoints, hp] at h ⊢
      simpa using ih (by simpa using h)

/-- C7: the connection step walks the fixed ordered endpoint list,
probing a front segment of it (each candidate at most once, in order);
the extraction client is bound to the first successful endpoint; if no
endpoint succeeds, every candidate was attempted once and the operation
fails, surfacing the aggregated per-endpoint failure reasons (one per
raising endpoint, in order) with no further retry. -/
theorem endpoint_selection_spec (probe : String → ProbeResult) :
    (connectExtractor probe endpoints =
      match endpoints.find? (fun e => (probe e).isOk) with
      | some ep => .extractUsing ep
      | none => .allFailed "API密钥验证失败: 所有API端点测试失败"
          ((endpoints.takeWhile (fun e => !(probe e).isOk)).filterMap (exnReason probe)))
    ∧ (∃ t, (testEndpoints probe endpoints).2.2 ++ t = endpoints)
    ∧ (endpoints.find? (fun e => (probe e).isOk) = none →
        (testEndpoints probe endpoints).2.2 = endpoints) := by
  refine ⟨?_, testEndpoints_attempted_front probe endpoints, ?_⟩
  · unfold connectExtractor
    rw [show testEndpoints probe endpoints =
        ((testEndpoints probe endpoints).1,
         (testEndpoints probe endpoints).2.1,
         (testEndpoints probe endpoints).2.2) from rfl,
      testEndpoints_sel, testEndpoints_errs]
    cases endpoints.find? (fun e => (probe e).isOk) <;> rfl
  · intro h
    exact testEndpoints_attempted_of_none probe endpoints
      (by rw [testEndpoints_sel]; exact h)

/-- Evaluation of the connection step with every probe raising: all
three candidates are attempted and all three reasons aggregated. -/
theorem endpoint_selection_spec_witness :
    (testEndpoints (fun _ => ProbeResult.exn "down") endpoints).2.2 = endpoints
    ∧ connectExtractor (fun _ => ProbeResult.exn "down") endpoints
        = .allFailed "API密钥验证失败: 所有API端点测试失败"
            ["https://api.deepseek.com: down",
             "https://api.deepseek.com/v1: down",
             "https://api.deepseek.cc: down"] := by
  have h := endpoint_selection_spec (fun _ => ProbeResult.exn "down")
  refine ⟨h.2.2 (by decide), ?_⟩
  rw [h.1]
  decide

/-! ## Lemmas about the conversion run -/

/-- An input that strips to nothing has line count 1, so any input over
the cap necessarily survives the blank-input check. -/
theorem lineCount_of_strip_nil (input : List Char) (h : pyStrip input = []) :
    lineCount input = 1 := by
  unfold lineCount
  rw [h]
  rfl

/-- C1 as stated is false: on a 51-line input with a key configured and
a reachable first endpoint, the run is indeed rejected with the message
stating the actual (51) and allowed (50) counts, but the network trace
before that rejection already holds one probe call to the extractor
service — not zero extractor calls. -/
theorem line_cap_probe_counterexample :
    lineCount (denseLines 51) > max_records
    ∧ (runConvert (denseLines 51) (some "sk-test") (fun _ => ProbeResult.ok)).1
        = .tooManyLines "一次最多处理50条记录（当前51条），请分批处理"
    ∧ (runConvert (denseLines 51) (some "sk-test") (fun _ => ProbeResult.ok)).2
        = [.probe "https://api.deepseek.com"]
    ∧ (runConvert (denseLines 51) (some "sk-test") (fun _ => ProbeResult.ok)).2 ≠ [] := by
  refine ⟨by decide, by decide, by decide, by decide⟩

/-- C1 amended: for every input over the 50-line cap, the run never
reaches the main extraction call (the network trace holds no main call,
only endpoint probes); and whenever a key is configured and some
endpoint probe succeeds, the run ends rejected with the message stating
the actual and allowed line counts. -/
theorem line_cap_rejects_before_main_call (input : List Char) (key : Option String)
    (probe : String → ProbeResult) (h : lineCount input > max_records) :
    (runConvert input key probe).2.all (fun e => !e.isMainCall) = true
    ∧ (∀ k ep, key = some k →
        endpoints.find? (fun e => (probe e).isOk) = some ep →
        (runConvert input key probe).1 =
          .tooManyLines ("一次最多处理" ++ toString max_records ++ "条记录（当前" ++
            toString (lineCount input) ++ "条），请分批处理")) := by
  have hstrip : ¬ pyStrip input = [] := by
    intro hs
    rw [lineCount_of_strip_nil input hs] at h
    exact absurd h (by decide)
  have hlimit : lineLimitCheck input =
      some ("一次最多处理" ++ toString max_records ++ "条记录（当前" ++
        toString (lineCount input) ++ "条），请分批处理") := by
    unfold lineLimitCheck
    rw [if_pos h]
  constructor
  · unfold runConvert
    rw [if_neg hstrip]
    cases key with
    | none => rfl
    | some k =>
      simp only
      cases hsel : (testEndpoints probe endpoints).1 with
      | none => simp [List.all_map, NetEvent.isMainCall]
      | some ep =>
        rw [hlimit]
        simp [List.all_map, NetEvent.isMainCall]
  · intro k ep hk hfind
    subst hk
    unfold runConvert
    rw [if_neg hstrip]
    simp only
    rw [show (testEndpoints probe endpoints).1 = some ep from by
      rw [testEndpoints_sel]; exact hfind]
    rw [hlimit]

/-- Evaluation of the amended claim on the concrete 51-line input: the
trace holds no main extraction call and the run ends rejected. -/
theorem line_cap_rejects_before_main_call_witness :
    (runConvert (denseLines 51) (some "sk-w") (fun _ => ProbeResult.ok)).2.all
      (fun e => !e.isMainCall) = true
    ∧ (runConvert (denseLines 51) (some "sk-w") (fun _ => ProbeResult.ok)).1
        = .tooManyLines ("一次最多处理" ++ toString max_records ++ "条记录（当前" ++
            toString (lineCount (denseLines 51)) ++ "条），请分批处理") := by
  have h := line_cap_rejects_before_main_call (denseLines 51) (some "sk-w")
    (fun _ => ProbeResult.ok) (by decide)
  exact ⟨h.1, h.2 "sk-w" "https://api.deepseek.com" rfl (by decide)⟩

/-! ## Lemmas about the export round trip -/

/-- Reading a list positionally over its whole index range recovers it. -/
theorem range_map_get {α : Type} (l : List α) (d : α) :
    (List.range l.length).map (fun c => (l.get? c).getD d) = l := by
  induction l with
  | nil => simp
  | cons a as ih =>
    rw [List.length_cons, List.range_succ_eq_map]
    simp only [List.map_cons, List.map_map]
    refine congrArg₂ _ rfl ?_
    calc (List.range as.length).map ((fun c => ((a :: as).get? c).getD d) ∘ Nat.succ)
        = (List.range as.length).map (fun c => (as.get? c).getD d) := by
          refine List.map_congr_left ?_
          intro c _
          rfl
      _ = as := ih

/-- C8: writing a record set with `to_excel(index=False)` and reading
the cell grid back yields the fixed ten-name header row and, cell for
cell and in table order, the original data rows (content only;
formatting is not part of the grid). -/
theorem export_roundtrip (rows : List (List String))
    (h : ∀ row ∈ rows, row.length = 10) :
    readSheet (sheetCell rows) rows.length 10 = (columns, rows) := by
  unfold readSheet
  refine congrArg₂ _ ?_ ?_
  · show readRow (sheetCell rows) 0 10 = columns
    unfold readRow sheetCell
    simp only [if_pos rfl]
    exact range_map_get columns ""
  · refine List.ext_get (by simp) ?_
    intro n h1 h2
    have hn : n < rows.length := by simpa using h2
    rw [List.get_map]
    have hidx : (List.range rows.length).get ⟨n, by simpa using h1⟩ = n :=
      List.get_range _ _
    rw [hidx]
    obtain ⟨row, hrow⟩ : ∃ row, rows.get? n = some row :=
      ⟨rows.get ⟨n, hn⟩, List.get?_eq_get hn⟩
    have hmem : row ∈ rows := List.get?_mem hrow
    have hlen : row.length = 10 := h row hmem
    have hget : rows.get ⟨n, hn⟩ = row := by
      have hh := List.get?_eq_get hn
      rw [hrow] at hh
      exact (Option.some_inj.mp hh).symm
    unfold readRow sheetCell
    simp only [Nat.add_sub_cancel, if_neg (Nat.succ_ne_zero n), hrow, Option.bind_some]
    rw [hget, ← hlen]
    exact range_map_get row ""

/-- Evaluation of the round trip on one concrete two-row record set. -/
theorem export_roundtrip_witness :
    readSheet (sheetCell [["王师傅", "空调维修", "龙湖源著", "8栋12-3", "", "13800138000",
        "不制冷 加氟200", "200元", "已支付", ""],
       ["李雪霜", "挂机加氟", "寸滩派出所楼上", "2栋9-8", "华宇", "13983014034",
        "加氟一共299 清洗50", "349元", "未支付", ""]]) 2 10
      = (columns,
         [["王师傅", "空调维修", "龙湖源著", "8栋12-3", "", "13800138000",
           "不制冷 加氟200", "200元", "已支付", ""],
          ["李雪霜", "挂机加氟", "寸滩派出所楼上", "2栋9-8", "华宇", "13983014034",
           "加氟一共299 清洗50", "349元", "未支付", ""]]) :=
  export_roundtrip
    [["王师傅", "空调维修", "龙湖源著", "8栋12-3", "", "13800138000",
      "不制冷 加氟200", "200元", "已支付", ""],
     ["李雪霜", "挂机加氟", "寸滩派出所楼上", "2栋9-8", "华宇", "13983014034",
      "加氟一共299 清洗50", "349元", "未支付", ""]]
    (by decide)

/-- C9: when the advanced formatting path raises, the export surfaces
the degradation warning (it never fails silently) and the workbook
written is the plain export: the header row and the data rows, with no
conditional formats, no frozen rows and no autofilter. -/
theorem export_fallback_warns (rows : List (List String)) (e : String) :
    (exportExcel rows (some e)).1
      = some ("高级Excel格式设置失败: " ++ e ++ "，使用基础导出")
    ∧ (exportExcel rows (some e)).2.sheet = columns :: rows
    ∧ (exportExcel rows (some e)).2.appliedFormats = []
    ∧ (exportExcel rows (some e)).2.frozenRows = 0
    ∧ (exportExcel rows (some e)).2.autofilter = none :=
  ⟨rfl, rfl, rfl, rfl, rfl⟩

/-- Evaluation of the fallback at a concrete failure. -/
theorem export_fallback_warns_witness :
    (exportExcel [recordRow []] (some "boom")).1
      = some "高级Excel格式设置失败: boom，使用基础导出"
    ∧ (exportExcel [recordRow []] (some "boom")).2.appliedFormats = [] :=
  ⟨(export_fallback_warns [recordRow []] "boom").1,
   (export_fallback_warns [recordRow []] "boom").2.2.1⟩

/-! ## Lemmas about line counting over blank-separated records -/

/-- `splitNL` always yields at least one segment. -/
theorem splitNL_ne_nil (cs : List Char) : splitNL cs ≠ [] := by
  cases cs with
  | nil => simp [splitNL]
  | cons c rest =>
    unfold splitNL
    by_cases h : c = '\n'
    · simp [h]
    · rw [if_neg h]
      cases splitNL rest <;> simp

/-- A newline opens a fresh segment. -/
theorem splitNL_newline (cs : List Char) : splitNL ('\n' :: cs) = [] :: splitNL cs := by
  simp [splitNL]

/-- A non-newline character extends the first segment, leaving the
segment count unchanged. -/
theorem splitNL_cons_length (c : Char) (cs : List Char) (h : c ≠ '\n') :
    (splitNL (c :: cs)).length = (splitNL cs).length := by
  conv_lhs => rw [splitNL]
  rw [if_neg h]
  cases hs : splitNL cs with
  | nil => exact absurd hs (splitNL_ne_nil cs)
  | cons t ts => simp

/-- `n ≥ 1` blank-separated one-character records start with the record
character. -/
theorem blanksep_head (n : Nat) (h : 1 ≤ n) : ∃ t, blanksep n = 'x' :: t := by
  match n, h with
  | 1, _ => exact ⟨[], rfl⟩
  | m + 2, _ => exact ⟨'\n' :: '\n' :: blanksep (m + 1), rfl⟩

/-- ... and they end with it too. -/
theorem blanksep_rev (n : Nat) (h : 1 ≤ n) : ∃ t, (blanksep n).reverse = 'x' :: t := by
  induction n with
  | zero => exact absurd h (by decide)
  | succ m ih =>
    match m, ih with
    | 0, _ => exact ⟨[], rfl⟩
    | k + 1, ih =>
      obtain ⟨t, ht⟩ := ih (by omega)
      refine ⟨t ++ ['\n', '\n', 'x'], ?_⟩
      show ('x' :: '\n' :: '\n' :: blanksep (k + 1)).reverse = _
      rw [List.reverse_cons, List.reverse_cons, List.reverse_cons, ht]
      simp

/-- Stripping leaves a blank-separated input unchanged: it starts and
ends with a record character, and interior blank lines survive. -/
theorem pyStrip_blanksep (n : Nat) (h : 1 ≤ n) : pyStrip (blanksep n) = blanksep n := by
  obtain ⟨t, ht⟩ := blanksep_head n h
  obtain ⟨r, hr⟩ := blanksep_rev n h
  unfold pyStrip
  rw [ht]
  rw [show List.dropWhile isPyWs ('x' :: t) = 'x' :: t from by
    rw [List.dropWhile_cons_of_neg (by decide)]]
  rw [← ht, hr]
  rw [show List.dropWhile isPyWs ('x' :: r) = 'x' :: r from by
    rw [List.dropWhile_cons_of_neg (by decide)]]
  rw [← hr, List.reverse_reverse]

/-- The segment count of `n ≥ 1` blank-separated records is `2n - 1`:
the `n` records plus the `n - 1` interior blank lines. -/
theorem splitNL_blanksep (n : Nat) (h : 1 ≤ n) :
    (splitNL (blanksep n)).length = 2 * n - 1 := by
  induction n with
  | zero => exact absurd h (by decide)
  | succ m ih =>
    match m, ih with
    | 0, _ => rfl
    | k + 1, ih =>
      show (splitNL ('x' :: '\n' :: '\n' :: blanksep (k + 1))).length = _
      rw [splitNL_cons_length 'x' _ (by decide), splitNL_newline, splitNL_newline]
      have := ih (by omega)
      simp only [List.length_cons]
      omega

/-- C10: the cap counts every newline-separated segment of the stripped
input, so each interior blank line between records counts as one line:
`n` records separated by blank lines count as `2n - 1` lines, and the
30-record input counts 59 lines and is rejected with the message
stating the actual (59) and allowed (50) counts, though it holds fewer
than 50 records. -/
theorem blank_lines_count_toward_cap :
    (∀ n, 1 ≤ n → lineCount (blanksep n) = 2 * n - 1)
    ∧ lineCount (blanksep 30) = 59
    ∧ lineLimitCheck (blanksep 30)
        = some "一次最多处理50条记录（当前59条），请分批处理" := by
  refine ⟨?_, by decide, by decide⟩
  intro n h
  unfold lineCount
  rw [pyStrip_blanksep n h]
  exact splitNL_blanksep n h

/-- Evaluation of the blank-line count at three records: five segments. -/
theorem blank_lines_count_toward_cap_witness :
    lineCount (blanksep 3) = 2 * 3 - 1 :=
  blank_lines_count_toward_cap.1 3 (by decide)

end Clear
